import Mathlib

/-!
Verification of the mental-health dashboard's data-preparation pipeline
(Loader, Recoder, Binner, Aggregator) as a shallow embedding in Lean.

Cell values of the pandas DataFrame are modelled by `Value`: a raw string
token, a numeric value (rationals stand in for float64 scores), or a
missing value (NaN).
-/

/-- Python's `str.lower()`, modelled per character (the ASCII case mapping,
which is all the survey tokens use). -/
def strLower (s : String) : String :=
  ⟨s.data.map Char.toLower⟩

/-- A cell of the survey table: raw string token, numeric score, or missing. -/
inductive Value
  | vStr (s : String)
  | vNum (q : ℚ)
  | vNa
deriving DecidableEq, Repr

/-- `conversion_dict` from the dashboard pages: the fixed recoding vocabulary. -/
def conversion_dict : List (String × ℚ) :=
  [("No", 0), ("Yes", 1),
   ("Rarely", 1), ("Sometimes", 2), ("Often", 3), ("Always", 4),
   ("1-14 days", 7), ("15-30 days", 22), ("More than 30 days", 35),
   ("Go out Every day", 0), ("More than 2 months", 60)]

/-- Dictionary lookup used by `Series.replace(conversion_dict)`. -/
def lookupConv (s : String) : Option ℚ :=
  conversion_dict.lookup s

/-- An ASCII whitespace character, as skipped by the numeric parser behind
`pd.to_numeric` (space, tab, newline, carriage return, vertical tab, form
feed). -/
def isSpaceChar (c : Char) : Bool :=
  c == ' ' || c == '\t' || c == '\n' || c == '\r' || c == '\x0b' || c == '\x0c'

/-- Strip whitespace from both ends of a token. -/
def stripEnds (cs : List Char) : List Char :=
  ((cs.dropWhile isSpaceChar).reverse.dropWhile isSpaceChar).reverse

/-- Value of an all-digit character run read left to right (0 when empty). -/
def digitsVal (cs : List Char) : ℕ :=
  cs.foldl (fun n c => 10 * n + (c.toNat - 48)) 0

/-- Consume an optional leading sign; returns (is-negative, rest). -/
def parseSign : List Char → Bool × List Char
  | '+' :: t => (false, t)
  | '-' :: t => (true, t)
  | cs => (false, cs)

/-- Parse the mantissa: digits with an optional decimal point, where either
the integer or the fractional digit run may be empty but not both
(`"35"`, `"3.5"`, `".5"`, `"5."`).  Returns the value and the unconsumed
suffix. -/
def parseMantissa (cs : List Char) : Option (ℚ × List Char) :=
  let ip := cs.takeWhile Char.isDigit
  let r1 := cs.dropWhile Char.isDigit
  match r1 with
  | '.' :: r2 =>
    let fp := r2.takeWhile Char.isDigit
    let r3 := r2.dropWhile Char.isDigit
    if ip.isEmpty && fp.isEmpty then none
    else some ((digitsVal ip : ℚ) + (digitsVal fp : ℚ) / (10 : ℚ) ^ fp.length, r3)
  | _ => if ip.isEmpty then none else some ((digitsVal ip : ℚ), r1)

/-- Parse an optional exponent suffix (`"e3"`, `"E-4"`, `"e+2"`) and apply
it to the mantissa value; anything else unconsumed makes the token
non-numeric. -/
def applyExponent (q : ℚ) : List Char → Option ℚ
  | [] => some q
  | e :: t =>
    if e == 'e' || e == 'E' then
      let sr := parseSign t
      let ds := sr.2.takeWhile Char.isDigit
      let rest := sr.2.dropWhile Char.isDigit
      if ds.isEmpty || !rest.isEmpty then none
      else some (if sr.1 then q / (10 : ℚ) ^ digitsVal ds else q * (10 : ℚ) ^ digitsVal ds)
    else none

/-- The string-to-float coercion performed by `pd.to_numeric(errors=coerce)`
on a token: optional surrounding whitespace, optional sign, digits with an
optional decimal point, optional exponent — so `"3"`, `"+3"`, `".5"`,
`"5."`, `" 3 "`, `"1e3"` and `"2E-4"` all coerce to numbers.  Non-finite
spellings (`"inf"`, `"nan"`) have no value in the rational model and no
such token occurs in this dataset; they are treated as non-numeric. -/
def parseNumStr (s : String) : Option ℚ :=
  let cs := stripEnds s.data
  let sr := parseSign cs
  match parseMantissa sr.2 with
  | none => none
  | some mq =>
    match applyExponent mq.1 mq.2 with
    | none => none
    | some q => some (if sr.1 then -q else q)

/-- `df[col].replace(conversion_dict)`: a string token equal to a dictionary
key becomes its numeric score; all other cells are unchanged. -/
def replaceValue (v : Value) : Value :=
  match v with
  | .vStr s =>
    match lookupConv s with
    | some q => .vNum q
    | none => .vStr s
  | other => other

/-- `pd.to_numeric(errors=coerce)`: numbers and NaN pass through; a string is
parsed as a number if possible, otherwise coerced to NaN. -/
def toNumericValue (v : Value) : Value :=
  match v with
  | .vStr s =>
    match parseNumStr s with
    | some q => .vNum q
    | none => .vNa
  | other => other

/-- One cell of the Recoder: `replace(conversion_dict)` then
`to_numeric(errors=coerce)`. -/
def recodeValue (v : Value) : Value :=
  toNumericValue (replaceValue v)

/-- The Recoder applied to a whole column. -/
def recodeColumn (col : List Value) : List Value :=
  col.map recodeValue

/-- Numeric view of a cell: `some` for a number, `none` for NaN or a string. -/
def Value.toNum? : Value → Option ℚ
  | .vNum q => some q
  | _ => none

/-- Back from the numeric view into a cell. -/
def numToValue : Option ℚ → Value
  | some q => .vNum q
  | none => .vNa

/-! ## Binner

A recoded factor column is a `List (Option ℚ)`: `none` is a missing value.
`Series.min` / `Series.max` skip missing entries. -/

/-- The non-missing entries of a column, in order. -/
def somes : List (Option ℚ) → List ℚ
  | [] => []
  | some q :: t => q :: somes t
  | none :: t => somes t

/-- `Series.notna().sum()`: the number of non-missing entries. -/
def notnaCount (xs : List (Option ℚ)) : ℕ :=
  (somes xs).length

/-- `Series.min()` over the non-missing entries, `none` when all are missing. -/
def colMin (xs : List (Option ℚ)) : Option ℚ :=
  match somes xs with
  | [] => none
  | h :: t => some (t.foldl min h)

/-- `Series.max()` over the non-missing entries, `none` when all are missing. -/
def colMax (xs : List (Option ℚ)) : Option ℚ :=
  match somes xs with
  | [] => none
  | h :: t => some (t.foldl max h)

/-- The category lambda `"High" if x > 0.5 else "Low"`. A missing scaled
value compares as not-greater (NaN > 0.5 is false in Python), so it is
labelled `"Low"`. -/
def catOfScaled (x : Option ℚ) : String :=
  match x with
  | some v => if v > 1/2 then "High" else "Low"
  | none => "Low"

/-- The scaled column: `(col - min) / (max - min)` when `min != max`
(missing entries stay missing), otherwise the scalar broadcast `0` assigned
to every row. -/
def scaledColumn (xs : List (Option ℚ)) (mn mx : ℚ) : List (Option ℚ) :=
  if mn ≠ mx then xs.map (Option.map (fun v => (v - mn) / (mx - mn)))
  else xs.map (fun _ => some 0)

/-- The Binner as run by the pages: guarded by `notna().sum() > 0`, it
min-max-scales within the current subset and labels each row. Returns
`none` when the page instead shows its no-data warning. -/
def categorize (xs : List (Option ℚ)) : Option (List String) :=
  if 0 < notnaCount xs then
    some ((scaledColumn xs ((colMin xs).getD 0) ((colMax xs).getD 0)).map catOfScaled)
  else none

/-! ## Aggregator

`country` and `occupation` are cast to pandas categorical dtype by the
Loader, and filtering keeps the full level set.  `groupby` on a categorical
grouper with the library default `observed=False` (pandas < 3.0, the
versions this code targets) emits one row per category level crossed with
each observed value of the other grouper, zero-filled; grouping only by a
plain object column emits only observed groups.  The order in which group
keys appear is not relied on by any claim, so observed keys are modelled in
first-appearance order. -/

/-- Unique values of a list, keeping first appearances. -/
def uniqueFirst (l : List String) : List String :=
  l.foldl (fun acc c => if c ∈ acc then acc else acc ++ [c]) []

/-- `groupby(["<factor>_category"]).size()` on the Dashboard page: the
grouping key is a plain object column, so only observed categories appear,
each with its count. -/
def dashboardCounts (cats : List String) : List (String × ℕ) :=
  (uniqueFirst cats).map (fun c => (c, cats.count c))

/-- `groupby(["country", "category"]).size()` on the Country page (and its
occupation twin): `country` is categorical, so with `observed=False` every
level of the column is crossed with every observed category label, and
combinations with no rows get count 0. -/
def groupbyCatSize (levels : List String) (keyCol : List String)
    (cats : List String) : List ((String × String) × ℕ) :=
  (levels.map (fun l =>
    (uniqueFirst cats).map (fun c => ((l, c), (keyCol.zip cats).count (l, c))))).flatten

/-- The Country page's categorize-and-count step on the filtered subset:
rows pair the country value with the recoded factor value; `levels` is the
full categorical level set of `country` from the Loader.  Returns `none`
when the page shows its no-data warning instead. -/
def countryCounts (levels : List String) (rows : List (String × Option ℚ)) :
    Option (List ((String × String) × ℕ)) :=
  match categorize (rows.map Prod.snd) with
  | none => none
  | some cats => some (groupbyCatSize levels (rows.map Prod.fst) cats)

/-- `df[df["country"].isin(selected_countries)]`. -/
def filterCountry (selected : List String) (rows : List (String × Option ℚ)) :
    List (String × Option ℚ) :=
  rows.filter (fun r => decide (r.1 ∈ selected))

/-- The Country page pipeline from the recoded table: the categorical level
set is the unique values present at load time, then the subset is filtered
and counted. -/
def countryPipeline (allRows : List (String × Option ℚ)) (selected : List String) :
    Option (List ((String × String) × ℕ)) :=
  countryCounts (uniqueFirst (allRows.map Prod.fst)) (filterCountry selected allRows)

/-! ## Named-column frame and the Dashboard page loops (missing-column handling) -/

/-- `stress_related_columns` from the Dashboard and Country pages. -/
def stress_related_columns : List String :=
  ["growing_stress", "coping_struggles", "changes_habits", "social_weakness"]

/-- A DataFrame viewed column-wise: association list from column name to
its cells. -/
def Frame : Type :=
  List (String × List Value)

instance : DecidableEq Frame :=
  inferInstanceAs (DecidableEq (List (String × List Value)))

/-- Column lookup, `none` when the column is absent. -/
def getCol (f : Frame) (c : String) : Option (List Value) :=
  f.lookup c

/-- `df[c] = vs`: overwrite the column when present, append it otherwise. -/
def setCol (f : Frame) (c : String) (vs : List Value) : Frame :=
  match f with
  | [] => [(c, vs)]
  | (c0, vs0) :: rest =>
    if c0 = c then (c, vs) :: rest else (c0, vs0) :: setCol rest c vs

/-- The Dashboard's conversion loop: each expected factor column present in
the frame is recoded in place; each absent one produces an `st.error`
message (collected in the second component) and is skipped. -/
def recodeLoop (f : Frame) : Frame × List String :=
  stress_related_columns.foldl
    (fun acc col =>
      match getCol acc.1 col with
      | some vs => (setCol acc.1 col (recodeColumn vs), acc.2)
      | none => (acc.1, acc.2 ++ ["Column " ++ col ++ " not found in dataset!"]))
    (f, [])

/-- The Dashboard's normalize-and-categorize loop.  Unlike the conversion
loop it reads `df_selected[col]` without first checking that the column
exists, so an absent column raises a `KeyError` (modelled as
`Except.error`) and aborts the page. -/
def dashboardBinLoop (f : Frame) : Except String Frame :=
  stress_related_columns.foldlM
    (fun fr col =>
      match getCol fr col with
      | none => Except.error ("KeyError: " ++ col)
      | some raw =>
        let xs := raw.map Value.toNum?
        if 0 < notnaCount xs then
          let scaled := scaledColumn xs ((colMin xs).getD 0) ((colMax xs).getD 0)
          let fr1 := setCol fr (col ++ "_scaled") (scaled.map numToValue)
          pure (setCol fr1 (col ++ "_category") ((scaled.map catOfScaled).map Value.vStr))
        else pure fr)
    f

/-! ## Occupation page: gender-specific occupation handling -/

/-- `female_only_occupations` from the Occupation page. -/
def female_only_occupations : List String :=
  ["housewife"]

/-- Outcome of the Occupation page body: the early `st.stop()` with the
joke message, the select-an-occupation info message, the no-data warning,
or the aggregated counts that feed the chart. -/
inductive OccOutcome
  | stopped
  | info
  | warnNoData
  | counts (l : List ((String × String) × ℕ))
deriving DecidableEq

/-- One respondent row of the Occupation page: occupation, gender, and the
recoded value of the selected factor. -/
def OccRow : Type :=
  String × String × Option ℚ

instance : DecidableEq OccRow :=
  inferInstanceAs (DecidableEq (String × String × Option ℚ))

/-- The Occupation page's row filtering: `isin(selected_occupations)`, then
removal of female-only-occupation rows whose gender is not female (only
when a female-only occupation is selected), then the general gender filter
when it is not `"All"`. -/
def occEligible (selected : List String) (genderFilter : String)
    (rows : List OccRow) : List OccRow :=
  let df1 := rows.filter (fun r => decide (r.1 ∈ selected))
  let df2 :=
    if selected.any (fun occ => decide (strLower occ ∈ female_only_occupations)) then
      df1.filter (fun r =>
        !(decide (strLower r.1 ∈ female_only_occupations) && !(strLower r.2.1 == "female")))
    else df1
  if strLower genderFilter ≠ "all" then
    df2.filter (fun r => strLower r.2.1 == strLower genderFilter)
  else df2

/-- The Occupation page body in source order: the single-housewife-with-male
early stop, then the mask filtering, then the empty-selection info message,
then categorize-and-count (occupation is categorical, so its full level set
is crossed in) or the no-data warning. -/
def occPipeline (allRows : List OccRow) (selected : List String)
    (genderFilter : String) : OccOutcome :=
  if selected.length = 1 ∧ strLower (selected.headD "") ∈ female_only_occupations
      ∧ strLower genderFilter = "male" then
    .stopped
  else
    let el := occEligible selected genderFilter allRows
    if selected = [] then .info
    else
      match categorize (el.map (fun r => r.2.2)) with
      | some cats =>
        .counts (groupbyCatSize (uniqueFirst (allRows.map Prod.fst))
          (el.map Prod.fst) cats)
      | none => .warnNoData

/-! ## Loader -/

/-- A freshly parsed CSV: a header row and data rows. -/
structure Table where
  header : List String
  rows : List (List Value)
deriving DecidableEq

/-- `str.lower().str.replace(" ", "_")` on a column name, per character. -/
def normalizeName (s : String) : String :=
  ⟨s.data.map (fun c => if c = ' ' then '_' else c.toLower)⟩

/-- `drop_duplicates()`: keep the first occurrence of each row. -/
def dropDuplicates (rs : List (List Value)) : List (List Value) :=
  rs.foldl (fun acc r => if r ∈ acc then acc else acc ++ [r]) []

/-- The cleaning performed by `load_data` after reading: normalize column
names and drop duplicate rows (the categorical-dtype tagging alters only
dtype metadata, modelled elsewhere as the level sets fed to the
Aggregator). -/
def cleanTable (t : Table) : Table :=
  { header := t.header.map normalizeName, rows := dropDuplicates t.rows }

/-- Errors `load_data` can raise. -/
inductive LoadError
  | notFound (path : String)
deriving DecidableEq

/-- A Python value as seen by the page-level guard `if df is None`. -/
inductive PyRet
  | none
  | frame (t : Table)
deriving DecidableEq

/-- `load_data`, over an abstract read-only filesystem mapping a path to
the CSV table it holds (or `Option.none` when the file is absent): raise
`FileNotFoundError` when `os.path.exists` fails, otherwise read and clean
the table and return it. -/
def load_data (fs : String → Option Table) (csv_path : String) :
    Except LoadError PyRet :=
  match fs csv_path with
  | Option.none => .error (.notFound csv_path)
  | some t => .ok (.frame (cleanTable t))

/-- The page prelude's guard expression `df is None`. -/
def dfIsNone (r : PyRet) : Bool :=
  r = PyRet.none

/-- Equality of `Except` results is decidable component-wise (needed to
evaluate the Dashboard pipeline and `load_data` on concrete inputs). -/
instance {ε α : Type} [DecidableEq ε] [DecidableEq α] : DecidableEq (Except ε α)
  | .error a, .error b => if h : a = b then .isTrue (by rw [h]) else .isFalse (by simp [h])
  | .error _, .ok _ => .isFalse (by simp)
  | .ok _, .error _ => .isFalse (by simp)
  | .ok a, .ok b => if h : a = b then .isTrue (by rw [h]) else .isFalse (by simp [h])

/-! ## Helper lemmas -/

/-- Recoding a single cell twice is the same as recoding it once: the first
pass leaves only numbers and NaN, which both recoding steps pass through. -/
theorem recodeValue_idem (v : Value) : recodeValue (recodeValue v) = recodeValue v := by
  cases v with
  | vNum q => rfl
  | vNa => rfl
  | vStr s =>
    have hres : recodeValue (.vStr s) = .vNa ∨ ∃ q, recodeValue (.vStr s) = .vNum q := by
      simp only [recodeValue, replaceValue]
      cases h : lookupConv s with
      | some q => exact Or.inr ⟨q, rfl⟩
      | none =>
        simp only [toNumericValue]
        cases hp : parseNumStr s with
        | some q => exact Or.inr ⟨q, rfl⟩
        | none => exact Or.inl rfl
    rcases hres with h | ⟨q, h⟩ <;> rw [h] <;> rfl

/-- Membership after `uniqueFirst`'s fold: exactly the accumulator plus the
traversed elements. -/
theorem mem_uniqueFirst_foldl (l : List String) (acc : List String) (x : String) :
    x ∈ l.foldl (fun a c => if c ∈ a then a else a ++ [c]) acc ↔ x ∈ acc ∨ x ∈ l := by
  induction l generalizing acc with
  | nil => simp
  | cons c t ih =>
    rw [List.foldl_cons, ih]
    by_cases hc : c ∈ acc
    · simp only [if_pos hc, List.mem_cons]
      constructor
      · tauto
      · rintro (h | rfl | h) <;> tauto
    · simp only [if_neg hc, List.mem_append, List.mem_cons, List.not_mem_nil, or_false,
        List.mem_singleton]
      constructor
      · tauto
      · tauto

/-- An element is in `uniqueFirst l` exactly when it is in `l`. -/
theorem mem_uniqueFirst (l : List String) (x : String) :
    x ∈ uniqueFirst l ↔ x ∈ l := by
  unfold uniqueFirst
  rw [mem_uniqueFirst_foldl]
  simp

/-- `uniqueFirst` of a non-empty list is non-empty. -/
theorem uniqueFirst_ne_nil (l : List String) (h : l ≠ []) : uniqueFirst l ≠ [] := by
  cases l with
  | nil => exact absurd rfl h
  | cons c t =>
    intro hu
    have : c ∈ uniqueFirst (c :: t) := (mem_uniqueFirst _ _).mpr (List.mem_cons_self _ _)
    rw [hu] at this
    exact absurd this (List.not_mem_nil _)

/-! ## Concrete fixtures used by the evaluation theorems -/

/-- A loaded table lacking the `growing_stress` column but holding the other
three expected factor columns. -/
def frameMissingGrowingStress : Frame :=
  [("country", [.vStr "USA", .vStr "Canada"]),
   ("coping_struggles", [.vStr "Yes", .vStr "No"]),
   ("changes_habits", [.vStr "No", .vStr "Yes"]),
   ("social_weakness", [.vStr "Yes", .vStr "Sometimes"])]

/-- A small raw CSV table: mixed-case header names and one duplicate row. -/
def sampleTable : Table :=
  { header := ["Country", "Growing Stress"],
    rows := [[.vStr "USA", .vStr "Yes"], [.vStr "USA", .vStr "Yes"], [.vStr "USA", .vStr "No"]] }

/-! ## Claim theorems -/

/-- C6: the Recoder is idempotent: recoding an already-recoded column (all
numeric or missing, no matching string tokens) changes nothing, i.e.
`Recoder(Recoder(column)) = Recoder(column)`. -/
theorem recoder_idempotent (col : List Value) :
    recodeColumn (recodeColumn col) = recodeColumn col := by
  unfold recodeColumn
  rw [List.map_map]
  exact List.map_congr_left fun v _ => recodeValue_idem v

/-- C4 counterexample: the numeric-looking token `"3"` is outside the
recoding vocabulary yet is coerced by `to_numeric` to the number 3, not to a
missing value — refuting "for every token outside the vocabulary the
Recoder produces a missing value". -/
theorem recoder_numeric_token_not_missing :
    lookupConv "3" = none ∧ recodeValue (.vStr "3") = .vNum 3
      ∧ recodeValue (.vStr "3") ≠ .vNa :=
  ⟨by decide, by decide, by decide⟩

/-- C4 (amended): every token of the fixed vocabulary recodes to exactly
its specified score; a token outside the vocabulary that does not parse as
a numeral becomes a missing value rather than raising an error; and a
numeric-looking token outside the vocabulary is coerced to its parsed
numeric value, not to missing. -/
theorem recoder_vocab_and_nonnumeric_missing :
    (recodeValue (.vStr "No") = .vNum 0 ∧ recodeValue (.vStr "Yes") = .vNum 1 ∧
     recodeValue (.vStr "Rarely") = .vNum 1 ∧ recodeValue (.vStr "Sometimes") = .vNum 2 ∧
     recodeValue (.vStr "Often") = .vNum 3 ∧ recodeValue (.vStr "Always") = .vNum 4 ∧
     recodeValue (.vStr "1-14 days") = .vNum 7 ∧ recodeValue (.vStr "15-30 days") = .vNum 22 ∧
     recodeValue (.vStr "More than 30 days") = .vNum 35 ∧
     recodeValue (.vStr "Go out Every day") = .vNum 0 ∧
     recodeValue (.vStr "More than 2 months") = .vNum 60)
    ∧ (∀ s, lookupConv s = none → parseNumStr s = none → recodeValue (.vStr s) = .vNa)
    ∧ (∀ s q, lookupConv s = none → parseNumStr s = some q →
        recodeValue (.vStr s) = .vNum q) := by
  refine ⟨by decide, ?_, ?_⟩
  · intro s h hp
    simp only [recodeValue, replaceValue, h, toNumericValue, hp]
  · intro s q h hp
    simp only [recodeValue, replaceValue, h, toNumericValue, hp]

/-- Witness for C4 at the spec's Scenario D token `"Maybe"` (missing) and
at the numeric-looking token `"50"` (coerced, not missing). -/
theorem recoder_vocab_and_nonnumeric_missing_witness :
    recodeValue (.vStr "Maybe") = .vNa ∧ recodeValue (.vStr "50") = .vNum 50 :=
  ⟨recoder_vocab_and_nonnumeric_missing.2.1 "Maybe" (by decide) (by decide),
   recoder_vocab_and_nonnumeric_missing.2.2 "50" 50 (by decide) (by decide)⟩

/-- C2 evaluation at the failing input: the raw column `["Yes", "Maybe"]`
recodes to `[1, missing]`, but the Binner labels the missing row `"Low"`
(not missing) and the aggregated count for `("X", "Low")` is 2, counting the
row the claim says must be excluded. -/
theorem missing_value_labelled_low_and_counted :
    recodeColumn [.vStr "Yes", .vStr "Maybe"] = [.vNum 1, .vNa]
    ∧ categorize [some 1, none] = some ["Low", "Low"]
    ∧ countryPipeline [("X", some 1), ("X", none)] ["X"] = some [(("X", "Low"), 2)] := by
  refine ⟨by decide, ?_, ?_⟩
  · norm_num [categorize, notnaCount, somes, colMin, colMax, scaledColumn, catOfScaled]
  · have h1 : filterCountry ["X"] [("X", some 1), ("X", none)] = [("X", some 1), ("X", none)] := by
      decide
    have hcat : categorize ([(("X" : String), some (1 : ℚ)), ("X", none)].map Prod.snd)
        = some ["Low", "Low"] := by
      norm_num [categorize, notnaCount, somes, colMin, colMax, scaledColumn, catOfScaled]
    unfold countryPipeline countryCounts
    rw [h1, hcat]
    decide

/-- C7 evaluation at the failing input: on a table lacking the
`growing_stress` column the Dashboard's conversion loop reports the missing
column, but its unguarded normalize-and-categorize loop then raises
`KeyError` instead of skipping the factor, so the remaining factors are
never processed. -/
theorem dashboard_missing_column_keyerror :
    (recodeLoop frameMissingGrowingStress).2
      = ["Column growing_stress not found in dataset!"]
    ∧ dashboardBinLoop (recodeLoop frameMissingGrowingStress).1
      = .error "KeyError: growing_stress" :=
  ⟨by decide, by decide⟩

/-- C9: `load_data` raises `FileNotFoundError` exactly when the backing CSV
file is absent; when the file exists it returns the cleaned table and does
not raise. -/
theorem load_data_notfound_spec (fs : String → Option Table) (p : String) :
    (fs p = none → load_data fs p = .error (.notFound p))
    ∧ ∀ t, fs p = some t → load_data fs p = .ok (.frame (cleanTable t)) := by
  constructor
  · intro h
    unfold load_data
    rw [h]
  · intro t h
    unfold load_data
    rw [h]

/-- Witness for C9: a filesystem without the CSV yields the error, one with
it yields the cleaned table. -/
theorem load_data_notfound_spec_witness :
    load_data (fun _ => none) "data/mental_health_cleaned.csv"
      = .error (.notFound "data/mental_health_cleaned.csv")
    ∧ load_data (fun _ => some sampleTable) "data/mental_health_cleaned.csv"
      = .ok (.frame (cleanTable sampleTable)) :=
  ⟨(load_data_notfound_spec (fun _ => none) "data/mental_health_cleaned.csv").1 rfl,
   (load_data_notfound_spec (fun _ => some sampleTable)
     "data/mental_health_cleaned.csv").2 sampleTable rfl⟩

/-- C10: `load_data` never returns `None` — every non-raising run returns a
DataFrame, so the pages' `if df is None` guard can never fire. -/
theorem load_data_never_none (fs : String → Option Table) (p : String) (r : PyRet)
    (h : load_data fs p = .ok r) : dfIsNone r = false := by
  unfold load_data at h
  cases hfs : fs p with
  | none =>
    rw [hfs] at h
    exact absurd h (by simp)
  | some t =>
    rw [hfs] at h
    have hr : r = .frame (cleanTable t) := by
      injection h with h1
      exact h1.symm
    rw [hr]
    rfl

/-- Witness for C10 on a concrete filesystem holding `sampleTable`. -/
theorem load_data_never_none_witness :
    dfIsNone (.frame (cleanTable sampleTable)) = false :=
  load_data_never_none (fun _ => some sampleTable)
    "data/mental_health_cleaned.csv" (.frame (cleanTable sampleTable)) rfl

/-- Folding `min` over a list of copies of `h` stays at `h`. -/
theorem foldl_min_all_eq (t : List ℚ) (h : ℚ) (hall : ∀ b ∈ t, b = h) :
    t.foldl min h = h := by
  induction t with
  | nil => rfl
  | cons b t ih =>
    have hb : b = h := hall b (List.mem_cons_self _ _)
    rw [List.foldl_cons, hb, min_self]
    exact ih fun x hx => hall x (List.mem_cons_of_mem _ hx)

/-- Folding `max` over a list of copies of `h` stays at `h`. -/
theorem foldl_max_all_eq (t : List ℚ) (h : ℚ) (hall : ∀ b ∈ t, b = h) :
    t.foldl max h = h := by
  induction t with
  | nil => rfl
  | cons b t ih =>
    have hb : b = h := hall b (List.mem_cons_self _ _)
    rw [List.foldl_cons, hb, max_self]
    exact ih fun x hx => hall x (List.mem_cons_of_mem _ hx)

/-- C1: on a subset whose factor column has `min ≠ max` over its non-missing
values, a row holding value `v` is labelled `"High"` iff
`(v - min) / (max - min) > 1/2`, and a row whose scaled value is exactly
`1/2` is labelled `"Low"` (strict threshold). -/
theorem binner_high_iff_scaled_above_half (xs : List (Option ℚ)) (mn mx v : ℚ) (i : ℕ)
    (cats : List String) (hmn : colMin xs = some mn) (hmx : colMax xs = some mx)
    (hne : mn ≠ mx) (hv : xs[i]? = some (some v)) (hc : categorize xs = some cats) :
    (cats[i]? = some "High" ↔ 1/2 < (v - mn) / (mx - mn))
    ∧ ((v - mn) / (mx - mn) = 1/2 → cats[i]? = some "Low") := by
  have h0 : 0 < notnaCount xs := by
    unfold colMin at hmn
    unfold notnaCount
    cases hs : somes xs with
    | nil =>
      rw [hs] at hmn
      exact absurd hmn (by simp)
    | cons a t => simp [hs]
  have hcats : cats = (scaledColumn xs mn mx).map catOfScaled := by
    unfold categorize at hc
    rw [if_pos h0, hmn, hmx] at hc
    simp only [Option.getD_some, Option.some.injEq] at hc
    exact hc.symm
  have hscaled : (scaledColumn xs mn mx)[i]? = some (some ((v - mn) / (mx - mn))) := by
    unfold scaledColumn
    rw [if_pos hne, List.getElem?_map, hv]
    rfl
  have hcat_i : cats[i]? = some (catOfScaled (some ((v - mn) / (mx - mn)))) := by
    rw [hcats, List.getElem?_map, hscaled]
    rfl
  rw [hcat_i]
  simp only [catOfScaled]
  constructor
  · by_cases hgt : 1/2 < (v - mn) / (mx - mn)
    · rw [if_pos hgt]
      exact ⟨fun _ => hgt, fun _ => rfl⟩
    · rw [if_neg hgt]
      constructor
      · intro hLH
        exact absurd (Option.some.inj hLH) (by decide)
      · intro h2
        exact absurd h2 hgt
  · intro heq
    rw [heq]
    rw [if_neg (lt_irrefl (1/2 : ℚ))]

/-- Witness for C1 on the spec's Scenario A column `[1, 0, 3]`: min 0,
max 3, the value 3 scales to 1 and is labelled `"High"`. -/
theorem binner_high_iff_scaled_above_half_witness :
    ((["Low", "Low", "High"] : List String)[2]? = some "High"
      ↔ (1 : ℚ)/2 < ((3 : ℚ) - 0) / (3 - 0))
    ∧ (((3 : ℚ) - 0) / (3 - 0) = 1/2 → (["Low", "Low", "High"] : List String)[2]? = some "Low") :=
  binner_high_iff_scaled_above_half [some 1, some 0, some 3] 0 3 3 2 ["Low", "Low", "High"]
    (by norm_num [colMin, somes, min_def])
    (by norm_num [colMax, somes, max_def])
    (by norm_num)
    (by rfl)
    (by norm_num [categorize, notnaCount, somes, colMin, colMax, scaledColumn, catOfScaled,
      min_def, max_def])

/-- C5: on a non-empty subset whose non-missing values are all identical
(so `min = max`, including the single-row case), every row gets scaled
value 0 and is labelled `"Low"`, whatever its raw value. -/
theorem binner_degenerate_all_low (xs : List (Option ℚ)) (h0 : 0 < notnaCount xs)
    (hall : ∀ a ∈ somes xs, ∀ b ∈ somes xs, a = b) :
    categorize xs = some (xs.map fun _ => "Low") := by
  obtain ⟨h, t, hs⟩ : ∃ h t, somes xs = h :: t := by
    cases hs : somes xs with
    | nil =>
      unfold notnaCount at h0
      rw [hs] at h0
      simp at h0
    | cons a t => exact ⟨a, t, rfl⟩
  have hmem : ∀ b ∈ t, b = h := by
    intro b hb
    exact hall b (by rw [hs]; exact List.mem_cons_of_mem _ hb)
      h (by rw [hs]; exact List.mem_cons_self _ _)
  have hmn : colMin xs = some h := by
    unfold colMin
    rw [hs]
    show some (t.foldl min h) = some h
    rw [foldl_min_all_eq t h hmem]
  have hmx : colMax xs = some h := by
    unfold colMax
    rw [hs]
    show some (t.foldl max h) = some h
    rw [foldl_max_all_eq t h hmem]
  unfold categorize
  rw [if_pos h0, hmn, hmx]
  simp only [Option.getD_some]
  unfold scaledColumn
  rw [if_neg (fun hne => hne rfl), List.map_map]
  congr 1
  exact List.map_congr_left fun a _ => by
    simp only [Function.comp]
    norm_num [catOfScaled]

/-- Witness for C5: a subset with values `[5, missing, 5]` (min = max = 5)
is labelled all `"Low"`. -/
theorem binner_degenerate_all_low_witness :
    categorize [some 5, none, some 5] = some ["Low", "Low", "Low"] :=
  binner_degenerate_all_low [some 5, none, some 5] (by decide) (by decide)

/-- C8: selecting only the occupation `"Housewife"` together with gender
filter `"Male"` leaves zero eligible rows on every dataset, and the page
stops with a message instead of producing any count row mixing the
mismatched gender and occupation. -/
theorem housewife_male_stop_and_empty (rows : List OccRow) :
    occPipeline rows ["Housewife"] "Male" = .stopped
    ∧ occEligible ["Housewife"] "Male" rows = [] := by
  constructor
  · unfold occPipeline
    rw [if_pos]
    exact ⟨by decide, by decide, by decide⟩
  · unfold occEligible
    rw [if_pos (by decide), if_pos (by decide)]
    rw [List.filter_filter, List.filter_filter]
    rw [List.filter_eq_nil_iff]
    rintro ⟨occ, g, val⟩ hr
    simp only [Bool.and_eq_true, decide_eq_true_eq, not_and]
    intro h3 h2
    obtain ⟨hg, hmask⟩ := h3
    have hocc : occ = "Housewife" := by simpa using h2
    subst hocc
    have hhw : decide (strLower "Housewife" ∈ female_only_occupations) = true := by decide
    rw [hhw] at hmask
    simp only [Bool.true_and, Bool.not_not, beq_iff_eq] at hmask
    rw [hmask] at hg
    have hml : strLower "Male" = "male" := by decide
    rw [hml] at hg
    exact absurd hg (by decide)

/-- A column has at least as many entries as non-missing entries. -/
theorem somes_length_le (xs : List (Option ℚ)) : (somes xs).length ≤ xs.length := by
  induction xs with
  | nil => exact Nat.le_refl 0
  | cons x t ih =>
    cases x with
    | some q => simpa [somes] using ih
    | none => simp [somes]; omega

/-- Scaling preserves the column length in both branches. -/
theorem scaledColumn_length (xs : List (Option ℚ)) (mn mx : ℚ) :
    (scaledColumn xs mn mx).length = xs.length := by
  unfold scaledColumn
  split <;> simp

/-- A successful categorization is never the empty column. -/
theorem categorize_ne_nil (xs : List (Option ℚ)) (cats : List String)
    (hc : categorize xs = some cats) : cats ≠ [] := by
  unfold categorize at hc
  by_cases h0 : 0 < notnaCount xs
  · rw [if_pos h0] at hc
    have hceq := Option.some.inj hc
    have hlen : cats.length = xs.length := by
      rw [← hceq, List.length_map, scaledColumn_length]
    intro hnil
    rw [hnil] at hlen
    have hle : notnaCount xs ≤ xs.length := somes_length_le xs
    simp at hlen
    omega
  · rw [if_neg h0] at hc
    exact absurd hc (by simp)

/-- C3 counterexample: load a two-country table, filter to `"USA"` only;
the Country aggregation still emits rows for the unselected level
`"Canada"`, with count 0 — refuting "the output contains no row for a group
combination with zero underlying matching records". -/
theorem aggregator_zero_count_row_present :
    countryPipeline [("Canada", some 1), ("USA", some 0), ("USA", some 1)] ["USA"]
      = some [(("Canada", "Low"), 0), (("Canada", "High"), 0),
              (("USA", "Low"), 1), (("USA", "High"), 1)] := by
  have h1 : filterCountry ["USA"] [("Canada", some 1), ("USA", some 0), ("USA", some 1)]
      = [("USA", some 0), ("USA", some 1)] := by decide
  have hcat : categorize ([(("USA" : String), some (0 : ℚ)), ("USA", some 1)].map Prod.snd)
      = some ["Low", "High"] := by
    norm_num [categorize, notnaCount, somes, colMin, colMax, scaledColumn, catOfScaled,
      min_def, max_def]
  unfold countryPipeline countryCounts
  rw [h1, hcat]
  decide

/-- Every level crossed with every observed label lands in the
categorical-groupby output, carrying the exact number of matching records
(possibly zero). -/
theorem mem_groupbyCatSize (levels keys cats : List String) (l c : String)
    (hl : l ∈ levels) (hc : c ∈ uniqueFirst cats) :
    ((l, c), (keys.zip cats).count (l, c)) ∈ groupbyCatSize levels keys cats := by
  unfold groupbyCatSize
  rw [List.mem_flatten]
  exact ⟨(uniqueFirst cats).map (fun c2 => ((l, c2), (keys.zip cats).count (l, c2))),
    List.mem_map.mpr ⟨l, hl, rfl⟩, List.mem_map.mpr ⟨c, hc, rfl⟩⟩

/-- C3 (amended): only the Dashboard aggregation — grouping by the derived
category label alone, a plain object column — omits empty groups (every
emitted count is positive); the Country and Occupation aggregations group
by a categorical column under pandas' default `observed=False`, so their
output contains a row for every category level of that column crossed with
every observed category label, carrying the exact number of matching
records — zero-filled, not omitted, when no record matches. -/
theorem aggregator_zero_fill_spec :
    (∀ cats : List String, ∀ p ∈ dashboardCounts cats, 0 < p.2)
    ∧ (∀ levels rows out cats, countryCounts levels rows = some out →
        categorize (rows.map Prod.snd) = some cats →
        ∀ l ∈ levels, ∀ c ∈ uniqueFirst cats,
          ((l, c), ((rows.map Prod.fst).zip cats).count (l, c)) ∈ out)
    ∧ (∀ allRows selected genderFilter out cats,
        occPipeline allRows selected genderFilter = .counts out →
        categorize ((occEligible selected genderFilter allRows).map (fun r => r.2.2))
          = some cats →
        ∀ l ∈ uniqueFirst (allRows.map Prod.fst), ∀ c ∈ uniqueFirst cats,
          ((l, c),
            (((occEligible selected genderFilter allRows).map Prod.fst).zip cats).count (l, c))
            ∈ out) := by
  refine ⟨?_, ?_, ?_⟩
  · intro cats p hp
    unfold dashboardCounts at hp
    rw [List.mem_map] at hp
    obtain ⟨c, hc, hcp⟩ := hp
    rw [← hcp]
    exact List.count_pos_iff.mpr ((mem_uniqueFirst cats c).mp hc)
  · intro levels rows out cats hout hcat l hl c hc
    unfold countryCounts at hout
    rw [hcat] at hout
    rw [← Option.some.inj hout]
    exact mem_groupbyCatSize levels (rows.map Prod.fst) cats l c hl hc
  · intro allRows selected genderFilter out cats hout hcat l hl c hc
    simp only [occPipeline] at hout
    split at hout
    · exact OccOutcome.noConfusion hout
    · split at hout
      · exact OccOutcome.noConfusion hout
      · split at hout
        · rename_i cats2 heq
          rw [hcat] at heq
          have hc2 : cats = cats2 := Option.some.inj heq
          rw [← hc2] at hout
          injection hout with hgb
          rw [← hgb]
          exact mem_groupbyCatSize (uniqueFirst (allRows.map Prod.fst))
            ((occEligible selected genderFilter allRows).map Prod.fst) cats l c hl hc
        · exact OccOutcome.noConfusion hout

/-- Witness for C3's amended statement: a positive Dashboard count; the
unselected level `"Canada"` appearing zero-filled in the Country output;
and the zero-count pair (`"Student"`, `"Low"`) appearing in the Occupation
output. -/
theorem aggregator_zero_fill_spec_witness :
    (0 < (("Low", 2) : String × ℕ).2)
    ∧ ((("Canada" : String), ("Low" : String)), (0 : ℕ)) ∈
        [((("Canada" : String), ("Low" : String)), (0 : ℕ)), (("Canada", "High"), 0),
         (("USA", "Low"), 1), (("USA", "High"), 1)]
    ∧ ((("Student" : String), ("Low" : String)), (0 : ℕ)) ∈
        [((("Corporate" : String), ("Low" : String)), (1 : ℕ)), (("Corporate", "High"), 0),
         (("Student", "Low"), 0), (("Student", "High"), 1)] := by
  refine ⟨?_, ?_, ?_⟩
  · exact aggregator_zero_fill_spec.1 ["Low", "Low"] ("Low", 2) (by decide)
  · have hcat : categorize ([(("USA" : String), some (0 : ℚ)), ("USA", some 1)].map Prod.snd)
        = some ["Low", "High"] := by
      norm_num [categorize, notnaCount, somes, colMin, colMax, scaledColumn, catOfScaled,
        min_def, max_def]
    have hcc : countryCounts ["Canada", "USA"] [("USA", some 0), ("USA", some 1)]
        = some [(("Canada", "Low"), 0), (("Canada", "High"), 0),
                (("USA", "Low"), 1), (("USA", "High"), 1)] := by
      unfold countryCounts
      rw [hcat]
      decide
    exact aggregator_zero_fill_spec.2.1 ["Canada", "USA"] [("USA", some 0), ("USA", some 1)]
      [(("Canada", "Low"), 0), (("Canada", "High"), 0),
       (("USA", "Low"), 1), (("USA", "High"), 1)] ["Low", "High"] hcc hcat
      "Canada" (by decide) "Low" (by decide)
  · have heleg : occEligible ["Corporate", "Student"] "All"
        [("Corporate", "Male", some 0), ("Student", "Female", some 1)]
        = [("Corporate", "Male", some 0), ("Student", "Female", some 1)] := by decide
    have hcat2 : categorize
        (([(("Corporate" : String), ("Male" : String), some (0 : ℚ)),
           ("Student", "Female", some 1)] : List OccRow).map (fun r => r.2.2))
        = some ["Low", "High"] := by
      norm_num [categorize, notnaCount, somes, colMin, colMax, scaledColumn, catOfScaled,
        min_def, max_def]
    have hocc : occPipeline [("Corporate", "Male", some 0), ("Student", "Female", some 1)]
        ["Corporate", "Student"] "All"
        = .counts [(("Corporate", "Low"), 1), (("Corporate", "High"), 0),
                   (("Student", "Low"), 0), (("Student", "High"), 1)] := by
      simp only [occPipeline]
      rw [if_neg (by decide), if_neg (by decide), heleg, hcat2]
      decide
    exact aggregator_zero_fill_spec.2.2
      [("Corporate", "Male", some 0), ("Student", "Female", some 1)]
      ["Corporate", "Student"] "All"
      [(("Corporate", "Low"), 1), (("Corporate", "High"), 0),
       (("Student", "Low"), 0), (("Student", "High"), 1)] ["Low", "High"]
      hocc (by rw [heleg]; exact hcat2)
      "Student" (by decide) "Low" (by decide)
